import Mathlib

/-!
Shallow embedding of src/music/main.py from the telebot repository: the
dispatch function convert_link, the message handler handle_message, and the
inline-query handler inline_convert, verified against the design
specification. The external yt2spotify library (service detection predicates,
Converter, MusicItem) is an opaque collaborator; it is modelled abstractly,
following the contract the specification gives for it.
-/

/-- Modelled from the spec: MusicItem is the result record produced by the
external yt2spotify converter. Its fields are exactly a destination URL,
three free-text description fields, and an artwork URL; in particular it has
no attribute named results. -/
structure MusicItem where
  url : String
  description1 : String
  description2 : String
  description3 : String
  art_url : String
  deriving DecidableEq

/-- Modelled from the spec: the possible observable behaviours of one call to
the external converter (Converter.by_names followed by converter.convert on
the link): it may raise an exception, return a value that has no results
attribute, or return a value whose results attribute is an ordered list of
candidate MusicItems. -/
inductive ConvertOutcome where
  | raises : ConvertOutcome
  | noResultsAttr : ConvertOutcome
  | results : List MusicItem → ConvertOutcome
  deriving DecidableEq

/-- Modelled from the spec: the external collaborators main.py calls into —
the detection predicates SpotifyService.detect and YoutubeMusicService.detect
(pure boolean predicates over link strings, no side effects), and the
converter, keyed by the argument triple (from_service, to_service, link). -/
structure Env where
  spotifyDetect : String → Bool
  ytDetect : String → Bool
  convert : String → String → String → ConvertOutcome

/-- Return value of convert_link: either a MusicItem (the Python code returns
result.results[0]) or a Python str error message. The isinstance(x, str)
check in the handlers distinguishes exactly these two cases. -/
inductive DispatchResult where
  | item : MusicItem → DispatchResult
  | errorMsg : String → DispatchResult
  deriving DecidableEq

/-- The unsupported-link error string of convert_link (main.py line 52). -/
def unsupportedMsg : String :=
  "Unsupported link. Please provide a valid Spotify or YouTube Music link."

/-- The no-results error string of convert_link (main.py line 66). -/
def noResultsMsg : String :=
  "No results found for the given link."

/-- The generic transient-error string of convert_link (main.py line 70). -/
def transientMsg : String :=
  "An error occurred while converting the link. Please try again later."

/-- Observable outcome of one call to convert_link: the returned value, whether
logger.error was called, and the argument triple (from_service, to_service,
link) that the external converter was invoked with, or none if the converter
was never invoked. -/
structure DispatchOutput where
  result : DispatchResult
  logged : Bool
  converterCall : Option (String × String × String)
  deriving DecidableEq

/-- The source-detection loop of convert_link (main.py lines 47-52): the
service classes are tried in the fixed order [SpotifyService,
YoutubeMusicService]; the first whose detect predicate accepts the link gives
from_service (cls.name is "spotify" for SpotifyService and "youtube_music"
for YoutubeMusicService); if neither accepts, the for-else branch reports no
match. -/
def detect_source (env : Env) (link : String) : Option String :=
  if env.spotifyDetect link then some "spotify"
  else if env.ytDetect link then some "youtube_music"
  else none

/-- The target-service computation of convert_link (main.py line 56):
to_service = "youtube_music" if from_service == "spotify" else "spotify". -/
def targetOf (from_service : String) : String :=
  if from_service == "spotify" then "youtube_music" else "spotify"

/-- convert_link (main.py lines 41-70). Detection happens first; on no match
the unsupported-link string is returned and the converter is never invoked.
Otherwise the converter is invoked with (from_service, targetOf from_service,
link) inside a try block: an exception is caught, logged via logger.error,
and mapped to the transient-error string; a returned value failing the guard
hasattr(result, 'results') and len(result.results) > 0 yields the no-results
string; otherwise result.results[0] is returned. The Lean function is total,
embedding the guarantee that convert_link never raises outward. -/
def convert_link (env : Env) (link : String) : DispatchOutput :=
  match detect_source env link with
  | none => ⟨DispatchResult.errorMsg unsupportedMsg, false, none⟩
  | some from_service =>
    let to_service := targetOf from_service
    match env.convert from_service to_service link with
    | ConvertOutcome.raises =>
        ⟨DispatchResult.errorMsg transientMsg, true,
         some (from_service, to_service, link)⟩
    | ConvertOutcome.noResultsAttr =>
        ⟨DispatchResult.errorMsg noResultsMsg, false,
         some (from_service, to_service, link)⟩
    | ConvertOutcome.results items =>
        match items with
        | [] => ⟨DispatchResult.errorMsg noResultsMsg, false,
                 some (from_service, to_service, link)⟩
        | m :: _ => ⟨DispatchResult.item m, false,
                     some (from_service, to_service, link)⟩

/-- handle_message (main.py lines 77-85): the full text of the inbound message
is passed to convert_link; if the result is a str (an error message) the bot
replies with that string, otherwise it replies with the MusicItem's url. The
returned string is the text of the reply. -/
def handle_message (env : Env) (text : String) : String :=
  match (convert_link env text).result with
  | DispatchResult.errorMsg s => s
  | DispatchResult.item m => m.url

/-- One InlineQueryResultArticle as built by inline_convert: title,
optional description, optional thumbnail URL, and the text of the
InputTextMessageContent. The random uuid4 id is not modelled. -/
structure InlineCard where
  title : String
  description : Option String
  thumbnail_url : Option String
  content : String
  deriving DecidableEq

/-- The expression getattr(converted_music, 'results', []) at main.py line 108,
where converted_music is the MusicItem returned by convert_link. A MusicItem
has no results attribute (its fields are exactly url, description1,
description2, description3, art_url), so getattr always produces the supplied
default, the empty list. -/
def musicItemResultsAttr (_m : MusicItem) : List MusicItem := []

/-- The single error card built by inline_convert when convert_link returned a
str: title "Error", no description, no thumbnail, and the error message as
message content (main.py lines 98-104). -/
def errorCard (msg : String) : InlineCard :=
  ⟨"Error", none, none, msg⟩

/-- One candidate card built by inline_convert in the success branch
(main.py lines 108-117): title item.description1, description
"item.description2 - item.description3", thumbnail item.art_url, and
item.url as message content. -/
def resultCard (item : MusicItem) : InlineCard :=
  ⟨item.description1,
   some (item.description2 ++ " - " ++ item.description3),
   some item.art_url,
   item.url⟩

/-- inline_convert (main.py lines 88-127). The value none models returning
early without calling answer_inline_query (empty query); some cards models
the call answer_inline_query(update.inline_query.id, cards). In the success
branch the cards are built from getattr(converted_music, 'results', [])[:3].
The surrounding try/except maps any exception raised in the body to a single
generic error card, but no step of the modelled body can raise, so that
branch is unreachable in the embedding. -/
def inline_convert (env : Env) (query : String) : Option (List InlineCard) :=
  if query = "" then none
  else
    match (convert_link env query).result with
    | DispatchResult.errorMsg s => some [errorCard s]
    | DispatchResult.item m =>
        some (((musicItemResultsAttr m).take 3).map resultCard)

/-- Environment in which neither detection predicate accepts any link. -/
def envNone : Env :=
  ⟨fun _ => false, fun _ => false, fun _ _ _ => ConvertOutcome.raises⟩

/-- A concrete candidate MusicItem used as witness data. -/
def sampleItem : MusicItem :=
  ⟨"https://music.youtube.com/watch?v=xyz", "Song", "Artist", "Album",
   "https://example.com/art.jpg"⟩

/-- The concrete Spotify track link of the end-to-end scenario. -/
def spotifyLink : String := "https://open.spotify.com/track/abc123"

/-- Environment in which SpotifyService.detect accepts exactly spotifyLink,
YoutubeMusicService.detect accepts nothing, and every converter call behaves
as the given outcome. -/
def envSpotify (o : ConvertOutcome) : Env :=
  ⟨fun s => s == spotifyLink, fun _ => false, fun _ _ _ => o⟩

/-- C2: for every environment and every input string, convert_link returns a
value — it is a total function, embedding the guarantee that it never raises
outward — and that value is either a MusicItem or one of the three defined
error strings. -/
theorem convert_link_total_C2 (env : Env) (link : String) :
    (∃ m, (convert_link env link).result = DispatchResult.item m) ∨
    (convert_link env link).result = DispatchResult.errorMsg unsupportedMsg ∨
    (convert_link env link).result = DispatchResult.errorMsg noResultsMsg ∨
    (convert_link env link).result = DispatchResult.errorMsg transientMsg := by
  unfold convert_link
  cases h : detect_source env link with
  | none => simp
  | some s =>
    cases hc : env.convert s (targetOf s) link with
    | raises => simp [hc]
    | noResultsAttr => simp [hc]
    | results items => cases items <;> simp [hc]

/-- C3: for every input string that neither detection predicate accepts,
convert_link returns the unsupported-link error message, does not raise (the
embedding is a total function), and never invokes the converter. -/
theorem convert_link_unsupported_C3 (env : Env) (link : String)
    (hs : env.spotifyDetect link = false) (hy : env.ytDetect link = false) :
    (convert_link env link).result = DispatchResult.errorMsg unsupportedMsg ∧
    (convert_link env link).converterCall = none := by
  unfold convert_link detect_source
  rw [hs, hy]
  simp

/-- Closed instance of convert_link_unsupported_C3 at a concrete environment
and input. -/
theorem convert_link_unsupported_C3_witness :
    envNone.spotifyDetect "not a link" = false ∧
    envNone.ytDetect "not a link" = false ∧
    ((convert_link envNone "not a link").result =
        DispatchResult.errorMsg unsupportedMsg ∧
      (convert_link envNone "not a link").converterCall = none) :=
  ⟨rfl, rfl, convert_link_unsupported_C3 envNone "not a link" rfl rfl⟩

/-- C4: for every input link the Detector recognizes, convert_link invokes the
converter with target service the complement of the detected source in the
two-service set: spotify maps to youtube_music and youtube_music maps to
spotify. -/
theorem convert_link_complement_C4 (env : Env) (link s : String)
    (h : detect_source env link = some s) :
    (convert_link env link).converterCall = some (s, targetOf s, link) ∧
    (s = "spotify" → targetOf s = "youtube_music") ∧
    (s = "youtube_music" → targetOf s = "spotify") := by
  refine ⟨?_, ?_, ?_⟩
  · unfold convert_link
    rw [h]
    cases hc : env.convert s (targetOf s) link with
    | raises => simp [hc]
    | noResultsAttr => simp [hc]
    | results items => cases items <;> simp [hc]
  · intro hs; subst hs; rfl
  · intro hs; subst hs; rfl

/-- Closed instance of convert_link_complement_C4 at a concrete environment
and input. -/
theorem convert_link_complement_C4_witness :
    detect_source (envSpotify ConvertOutcome.noResultsAttr) spotifyLink =
      some "spotify" ∧
    ((convert_link (envSpotify ConvertOutcome.noResultsAttr)
        spotifyLink).converterCall =
      some ("spotify", targetOf "spotify", spotifyLink) ∧
    ("spotify" = "spotify" → targetOf "spotify" = "youtube_music") ∧
    ("spotify" = "youtube_music" → targetOf "spotify" = "spotify")) :=
  ⟨rfl,
   convert_link_complement_C4 (envSpotify ConvertOutcome.noResultsAttr)
     spotifyLink "spotify" rfl⟩

/-- C5: for every input link the Detector recognizes, if the converter raises,
convert_link returns the generic transient-error message and logger.error is
called; the exception is not propagated, since the embedding of convert_link
is a total function whose value this theorem gives. -/
theorem convert_link_raises_C5 (env : Env) (link s : String)
    (h : detect_source env link = some s)
    (hr : env.convert s (targetOf s) link = ConvertOutcome.raises) :
    (convert_link env link).result = DispatchResult.errorMsg transientMsg ∧
    (convert_link env link).logged = true := by
  unfold convert_link
  rw [h]
  simp [hr]

/-- Closed instance of convert_link_raises_C5 at a concrete environment and
input. -/
theorem convert_link_raises_C5_witness :
    detect_source (envSpotify ConvertOutcome.raises) spotifyLink =
      some "spotify" ∧
    (envSpotify ConvertOutcome.raises).convert "spotify" (targetOf "spotify")
      spotifyLink = ConvertOutcome.raises ∧
    ((convert_link (envSpotify ConvertOutcome.raises) spotifyLink).result =
        DispatchResult.errorMsg transientMsg ∧
      (convert_link (envSpotify ConvertOutcome.raises) spotifyLink).logged =
        true) :=
  ⟨rfl, rfl,
   convert_link_raises_C5 (envSpotify ConvertOutcome.raises) spotifyLink
     "spotify" rfl rfl⟩

/-- C6: for every input link the Detector recognizes, if the converter returns
a value whose results list is empty, convert_link returns the no-results
error message; if the list is non-empty, convert_link returns its first
element. -/
theorem convert_link_results_C6 (env : Env) (link s : String)
    (h : detect_source env link = some s) :
    (env.convert s (targetOf s) link = ConvertOutcome.results [] →
      (convert_link env link).result = DispatchResult.errorMsg noResultsMsg) ∧
    (∀ (m : MusicItem) (rest : List MusicItem),
      env.convert s (targetOf s) link = ConvertOutcome.results (m :: rest) →
      (convert_link env link).result = DispatchResult.item m) := by
  constructor
  · intro he
    unfold convert_link
    rw [h]
    simp [he]
  · intro m rest hne
    unfold convert_link
    rw [h]
    simp [hne]

/-- Closed instance of convert_link_results_C6 at a concrete environment and
input, evaluating both the empty-list branch hypothesis side and the
conclusion shape. -/
theorem convert_link_results_C6_witness :
    detect_source (envSpotify (ConvertOutcome.results [])) spotifyLink =
      some "spotify" ∧
    (((envSpotify (ConvertOutcome.results [])).convert "spotify"
        (targetOf "spotify") spotifyLink = ConvertOutcome.results [] →
      (convert_link (envSpotify (ConvertOutcome.results []))
        spotifyLink).result = DispatchResult.errorMsg noResultsMsg) ∧
    (∀ (m : MusicItem) (rest : List MusicItem),
      (envSpotify (ConvertOutcome.results [])).convert "spotify"
        (targetOf "spotify") spotifyLink = ConvertOutcome.results (m :: rest) →
      (convert_link (envSpotify (ConvertOutcome.results []))
        spotifyLink).result = DispatchResult.item m)) :=
  ⟨rfl,
   convert_link_results_C6 (envSpotify (ConvertOutcome.results []))
     spotifyLink "spotify" rfl⟩

/-- C10: for every input link the Detector recognizes, if the converter returns
a value with no results attribute, the hasattr guard fails and convert_link
returns the no-results error message instead of raising (the embedding is a
total function). -/
theorem convert_link_noattr_C10 (env : Env) (link s : String)
    (h : detect_source env link = some s)
    (ha : env.convert s (targetOf s) link = ConvertOutcome.noResultsAttr) :
    (convert_link env link).result = DispatchResult.errorMsg noResultsMsg := by
  unfold convert_link
  rw [h]
  simp [ha]

/-- Closed instance of convert_link_noattr_C10 at a concrete environment and
input. -/
theorem convert_link_noattr_C10_witness :
    detect_source (envSpotify ConvertOutcome.noResultsAttr) spotifyLink =
      some "spotify" ∧
    (envSpotify ConvertOutcome.noResultsAttr).convert "spotify"
      (targetOf "spotify") spotifyLink = ConvertOutcome.noResultsAttr ∧
    (convert_link (envSpotify ConvertOutcome.noResultsAttr)
      spotifyLink).result = DispatchResult.errorMsg noResultsMsg :=
  ⟨rfl, rfl,
   convert_link_noattr_C10 (envSpotify ConvertOutcome.noResultsAttr)
     spotifyLink "spotify" rfl rfl⟩

/-- C7: for every environment and inline query, whenever the inline-query
handler answers (calls answer_inline_query), it answers with at most 3 cards;
and whenever dispatch produced an error string, it answers with exactly one
error card carrying that string. -/
theorem inline_convert_card_count_C7 (env : Env) (query : String)
    (cards : List InlineCard) (h : inline_convert env query = some cards) :
    cards.length ≤ 3 ∧
    (∀ s, (convert_link env query).result = DispatchResult.errorMsg s →
      cards = [errorCard s]) := by
  unfold inline_convert at h
  by_cases hq : query = ""
  · simp [hq] at h
  · rw [if_neg hq] at h
    cases hr : (convert_link env query).result with
    | errorMsg s =>
      rw [hr] at h
      injection h with h
      subst h
      refine ⟨by simp, ?_⟩
      intro s2 hr2
      injection hr2 with hs2
      rw [hs2]
    | item m =>
      rw [hr] at h
      injection h with h
      subst h
      refine ⟨?_, ?_⟩
      · calc (((musicItemResultsAttr m).take 3).map resultCard).length
            = ((musicItemResultsAttr m).take 3).length := by
              simp
          _ ≤ 3 := List.length_take_le 3 _
      · intro s2 hr2
        exact absurd hr2 (by simp)

/-- Closed instance of inline_convert_card_count_C7 at a concrete environment
and query. -/
theorem inline_convert_card_count_C7_witness :
    inline_convert envNone "not a link" = some [errorCard unsupportedMsg] ∧
    ([errorCard unsupportedMsg].length ≤ 3 ∧
     ∀ s, (convert_link envNone "not a link").result =
         DispatchResult.errorMsg s →
       [errorCard unsupportedMsg] = [errorCard s]) :=
  ⟨rfl,
   inline_convert_card_count_C7 envNone "not a link"
     [errorCard unsupportedMsg] rfl⟩

/-- C8: the end-to-end scenario. If the Detector's Spotify predicate accepts
the inbound message text, then the detected source is spotify, the converter
is invoked with target youtube_music, and when its first result is a
MusicItem the message handler replies with exactly that item's URL string;
moreover, whenever dispatch returns an error string, the message handler
replies with exactly that error string. -/
theorem handle_message_e2e_C8 (env : Env) (link : String) (m : MusicItem)
    (rest : List MusicItem)
    (hdet : env.spotifyDetect link = true)
    (hconv : env.convert "spotify" "youtube_music" link =
      ConvertOutcome.results (m :: rest)) :
    (detect_source env link = some "spotify" ∧
     (convert_link env link).converterCall =
       some ("spotify", "youtube_music", link) ∧
     handle_message env link = m.url) ∧
    ∀ (env2 : Env) (text s : String),
      (convert_link env2 text).result = DispatchResult.errorMsg s →
      handle_message env2 text = s := by
  have hds : detect_source env link = some "spotify" := by
    unfold detect_source
    rw [hdet]
    rfl
  have htgt : targetOf "spotify" = "youtube_music" := rfl
  refine ⟨⟨hds, ?_, ?_⟩, ?_⟩
  · unfold convert_link
    rw [hds]
    simp [htgt, hconv]
  · unfold handle_message convert_link
    rw [hds]
    simp [htgt, hconv]
  · intro env2 text s hres
    unfold handle_message
    rw [hres]

/-- Closed instance of handle_message_e2e_C8 at the concrete Spotify link of
the scenario, with the converter returning a MusicItem whose url is the
YouTube Music link of the scenario. -/
theorem handle_message_e2e_C8_witness :
    (envSpotify (ConvertOutcome.results [sampleItem])).spotifyDetect
      spotifyLink = true ∧
    (envSpotify (ConvertOutcome.results [sampleItem])).convert "spotify"
      "youtube_music" spotifyLink = ConvertOutcome.results [sampleItem] ∧
    ((detect_source (envSpotify (ConvertOutcome.results [sampleItem]))
        spotifyLink = some "spotify" ∧
      (convert_link (envSpotify (ConvertOutcome.results [sampleItem]))
        spotifyLink).converterCall =
        some ("spotify", "youtube_music", spotifyLink) ∧
      handle_message (envSpotify (ConvertOutcome.results [sampleItem]))
        spotifyLink = sampleItem.url) ∧
     ∀ (env2 : Env) (text s : String),
       (convert_link env2 text).result = DispatchResult.errorMsg s →
       handle_message env2 text = s) :=
  ⟨rfl, rfl,
   handle_message_e2e_C8 (envSpotify (ConvertOutcome.results [sampleItem]))
     spotifyLink sampleItem [] rfl rfl⟩

/-- C9: for the empty inline query string, the handler returns early without
sending any inline-query answer: no result cards and no error card. -/
theorem inline_convert_empty_C9 (env : Env) :
    inline_convert env "" = none := rfl

/-- C1: evaluation of the inline-query handler at the concrete failing input.
The Detector recognizes the Spotify link and the converter yields the
non-empty result list [sampleItem], so convert_link returns the MusicItem
sampleItem; yet the handler answers with the empty card list, because
getattr(converted_music, 'results', []) is evaluated on that single MusicItem
— which has no results attribute — rather than on the converter's result
object, so the loop over candidates runs zero times and no card is ever
produced on success. -/
theorem inline_convert_success_empty_C1 :
    detect_source (envSpotify (ConvertOutcome.results [sampleItem]))
      spotifyLink = some "spotify" ∧
    (convert_link (envSpotify (ConvertOutcome.results [sampleItem]))
      spotifyLink).result = DispatchResult.item sampleItem ∧
    inline_convert (envSpotify (ConvertOutcome.results [sampleItem]))
      spotifyLink = some [] :=
  ⟨rfl, rfl, rfl⟩
